import Mathlib

/-!
Verification of the flitsmeister Python client (src/flitsmeister/models.py and
src/flitsmeister/flitsmeister.py) as a shallow embedding.

Modelling conventions:
- Timestamps and datetimes are integers counting seconds since the epoch.
- Python exceptions are the `PyError` inductive; a Python callable that can
  raise is embedded as a function into `Except PyError`.
- A Python attribute that is either unset or set to `None` is `none`.
- JSON mappings read with fixed keys via `dict.get` are embedded as structures
  whose fields are `Option`-valued: `none` models an absent key (for which
  `dict.get` returns `None`).
-/

/-- Python exceptions relevant to this client: PyJWT's ExpiredSignatureError and
DecodeError, the builtin TypeError and AttributeError, and the client's own
NotauthenticatedException. -/
inductive PyError where
  | expiredSignatureError
  | decodeError
  | typeError
  | attributeError
  | notauthenticated
deriving DecidableEq

/-- Payload of a JSON Web Token: the claims the source reads. `sub` is the
subject claim, `exp` the expiry claim in seconds since the epoch; each may be
absent. -/
structure JwtPayload where
  sub : Option String
  exp : Option Int
deriving DecidableEq

/-- An encoded JWT string: either structurally well formed, carrying a payload,
or malformed. `raw` is the verbatim token string in both cases. -/
inductive EncodedJwt where
  | wellFormed (raw : String) (payload : JwtPayload)
  | malformed (raw : String)
deriving DecidableEq

/-- The verbatim string of an encoded token. -/
def EncodedJwt.raw : EncodedJwt → String
  | .wellFormed r _ => r
  | .malformed r => r

/-- Model of the external PyJWT call
`jwt.decode(token, options=dict(verify_signature=False))` as the source's
`suppress(jwt.ExpiredSignatureError)` handler assumes it behaves: the signature
is never verified, a structurally malformed token raises DecodeError, and a
present expiry claim lying at or before the current time raises
ExpiredSignatureError (PyJWT compares `exp <= now`). -/
def jwtDecode (now : Int) (t : EncodedJwt) : Except PyError JwtPayload :=
  match t with
  | .malformed _ => .error .decodeError
  | .wellFormed _ p =>
    match p.exp with
    | some e => if e ≤ now then .error .expiredSignatureError else .ok p
    | none => .ok p

/-- Model of `datetime.fromtimestamp`: datetimes are already epoch seconds. -/
def datetime_fromtimestamp (e : Int) : Int := e

/-- `Auth` dataclass of models.py. `object_id` and `access_token_expires` are
`none` when the corresponding attribute was never assigned (or assigned
`None`). -/
structure Auth where
  session_token : Option String
  access_token : Option String
  object_id : Option String
  access_token_expires : Option Int
deriving DecidableEq

/-- `Auth.__init__(session_token, access_token)` of models.py, at decode time
`now`. Stores both tokens verbatim, then decodes the access token without
signature verification; ExpiredSignatureError is suppressed, leaving
`object_id` and `access_token_expires` unset; any other decode failure
propagates. Passing `None` as the token makes `jwt.decode` fail (DecodeError);
a decoded payload without an expiry claim makes
`datetime.fromtimestamp(None)` raise TypeError. -/
def Auth.init (now : Int) (session_token : Option String)
    (access_token : Option EncodedJwt) : Except PyError Auth :=
  let raw := access_token.map EncodedJwt.raw
  match access_token with
  | none => .error .decodeError
  | some tok =>
    match jwtDecode now tok with
    | .error .expiredSignatureError =>
      .ok { session_token := session_token, access_token := raw,
            object_id := none, access_token_expires := none }
    | .error e => .error e
    | .ok p =>
      match p.exp with
      | none => .error .typeError
      | some e =>
        .ok { session_token := session_token, access_token := raw,
              object_id := p.sub,
              access_token_expires := some (datetime_fromtimestamp e) }

/-- A login response body, restricted to the two keys `Auth.from_dict` reads
(other keys are ignored by the source). -/
structure LoginResponse where
  sessionToken : Option String
  accessToken : Option EncodedJwt
deriving DecidableEq

/-- `Auth.from_dict` of models.py: reads `sessionToken` and `accessToken` with
`dict.get` and calls the constructor. -/
def Auth.from_dict (now : Int) (data : LoginResponse) : Except PyError Auth :=
  Auth.init now data.sessionToken data.accessToken

/-- `Auth.is_access_token_expired` of models.py: `datetime.now() >
self.access_token_expires`. Reading the attribute while unset raises
AttributeError. -/
def Auth.is_access_token_expired (now : Int) (a : Auth) : Except PyError Bool :=
  match a.access_token_expires with
  | none => .error .attributeError
  | some e => .ok (decide (e < now))

/-- C1: decoding a login response whose access token carries an expiry claim in
the past does not raise; the resulting Auth stores `sessionToken` and
`accessToken` verbatim while `object_id` and `access_token_expires` remain
unset. -/
theorem auth_decode_expired_token (now : Int) (d : LoginResponse) (raw : String)
    (p : JwtPayload) (e : Int) (htok : d.accessToken = some (.wellFormed raw p))
    (hexp : p.exp = some e) (hpast : e < now) :
    Auth.from_dict now d =
      .ok { session_token := d.sessionToken, access_token := some raw,
            object_id := none, access_token_expires := none } := by
  simp [Auth.from_dict, Auth.init, jwtDecode, EncodedJwt.raw, htok, hexp,
    le_of_lt hpast]

/-- Witness for C1 at a concrete expired token. -/
theorem auth_decode_expired_token_witness :
    Auth.from_dict 100
        { sessionToken := some "sess", accessToken :=
            some (.wellFormed "tok" { sub := some "uid", exp := some 50 }) } =
      .ok { session_token := some "sess", access_token := some "tok",
            object_id := none, access_token_expires := none } :=
  auth_decode_expired_token 100
    { sessionToken := some "sess", accessToken :=
        some (.wellFormed "tok" { sub := some "uid", exp := some 50 }) }
    "tok" { sub := some "uid", exp := some 50 } 50 rfl rfl (by decide)

/-- C3: decoding a login response that contains both keys and whose access
token decodes with a non-expired expiry claim stores both tokens verbatim,
sets `object_id` to the token's subject claim and `access_token_expires` to
the expiry claim converted to a timestamp. -/
theorem auth_decode_fresh_token (now : Int) (d : LoginResponse) (st raw : String)
    (p : JwtPayload) (e : Int) (hsess : d.sessionToken = some st)
    (htok : d.accessToken = some (.wellFormed raw p)) (hexp : p.exp = some e)
    (hfresh : now < e) :
    Auth.from_dict now d =
      .ok { session_token := some st, access_token := some raw,
            object_id := p.sub,
            access_token_expires := some (datetime_fromtimestamp e) } := by
  simp [Auth.from_dict, Auth.init, jwtDecode, EncodedJwt.raw, hsess, htok,
    hexp, not_le.mpr hfresh]

/-- Witness for C3 at a concrete fresh token. -/
theorem auth_decode_fresh_token_witness :
    Auth.from_dict 100
        { sessionToken := some "sess", accessToken :=
            some (.wellFormed "tok" { sub := some "uid", exp := some 500 }) } =
      .ok { session_token := some "sess", access_token := some "tok",
            object_id := some "uid", access_token_expires := some 500 } :=
  auth_decode_fresh_token 100
    { sessionToken := some "sess", accessToken :=
        some (.wellFormed "tok" { sub := some "uid", exp := some 500 }) }
    "sess" "tok" { sub := some "uid", exp := some 500 } 500 rfl rfl rfl
    (by decide)

/-- C4: on an Auth whose expiry was derived, `is_access_token_expired` is the
pure comparison of the current time with the stored expiry: it returns true
at any time after the expiry timestamp and false at any time before it. -/
theorem is_access_token_expired_correct (a : Auth) (e : Int)
    (h : a.access_token_expires = some e) :
    (∀ now : Int, a.is_access_token_expired now = .ok (decide (e < now))) ∧
    (∀ now : Int, e < now → a.is_access_token_expired now = .ok true) ∧
    (∀ now : Int, now < e → a.is_access_token_expired now = .ok false) := by
  refine ⟨fun now => by simp [Auth.is_access_token_expired, h],
    fun now hlt => by simp [Auth.is_access_token_expired, h, hlt],
    fun now hlt => by simp [Auth.is_access_token_expired, h, not_lt.mpr (le_of_lt hlt)]⟩

/-- Witness for C4 on a concrete Auth, evaluated after and before expiry. -/
theorem is_access_token_expired_correct_witness :
    ({ session_token := some "s", access_token := some "t",
       object_id := some "u", access_token_expires := some 500 } :
        Auth).is_access_token_expired 600 = .ok true ∧
    ({ session_token := some "s", access_token := some "t",
       object_id := some "u", access_token_expires := some 500 } :
        Auth).is_access_token_expired 400 = .ok false :=
  ⟨(is_access_token_expired_correct _ 500 rfl).2.1 600 (by decide),
   (is_access_token_expired_correct _ 500 rfl).2.2 400 (by decide)⟩

/-- The `statistics` sub-object of a user response, with the four keys the
source reads. -/
structure UserStatisticsDict where
  topSpeed : Option Int
  topSprint : Option Int
  travelDistance : Option Int
  travelTime : Option Int
deriving DecidableEq

/-- A user response body, restricted to the keys `User.from_dict` reads;
`statistics` is the nested sub-object (absent when the key is missing). -/
structure UserDict where
  evEnabled4411 : Option Bool
  parkingEnabled4411 : Option Bool
  paymentMethodSet4411 : Option Bool
  accessToken : Option String
  firstName : Option String
  gender : Option Int
  has4411Account : Option Bool
  objectId : Option String
  parkingEnabled : Option Bool
  sessionToken : Option String
  statistics : Option UserStatisticsDict
  username : Option String
  vehicleType : Option Int
deriving DecidableEq

/-- `User` dataclass of models.py; every field is `Option`-valued because the
lenient `dict.get` reads propagate `None` for absent keys. -/
structure User where
  fourfouroneone_ev_enabled : Option Bool
  fourfouroneone_parking_enabled : Option Bool
  fourfouroneone_payment_method_set : Option Bool
  access_token : Option String
  first_name : Option String
  gender : Option Int
  has_4411_account : Option Bool
  object_id : Option String
  parking_enabled : Option Bool
  session_token : Option String
  statistics_top_speed : Option Int
  statistics_top_sprint : Option Int
  statistics_travel_distance : Option Int
  statistics_travel_time : Option Int
  username : Option String
  vehicle_type : Option Int
deriving DecidableEq

/-- `User.from_dict` of models.py. Flat keys are read with `dict.get`; the four
statistics fields are read as `data.get("statistics").get(...)`, so when the
`statistics` key is absent the source dereferences `None` and raises
AttributeError. -/
def User.from_dict (data : UserDict) : Except PyError User :=
  match data.statistics with
  | none => .error .attributeError
  | some st =>
    .ok { fourfouroneone_ev_enabled := data.evEnabled4411,
          fourfouroneone_parking_enabled := data.parkingEnabled4411,
          fourfouroneone_payment_method_set := data.paymentMethodSet4411,
          access_token := data.accessToken,
          first_name := data.firstName,
          gender := data.gender,
          has_4411_account := data.has4411Account,
          object_id := data.objectId,
          parking_enabled := data.parkingEnabled,
          session_token := data.sessionToken,
          statistics_top_speed := st.topSpeed,
          statistics_top_sprint := st.topSprint,
          statistics_travel_distance := st.travelDistance,
          statistics_travel_time := st.travelTime,
          username := data.username,
          vehicle_type := data.vehicleType }

/-- The inner object of a statistics response, with the keys
`Statistics.from_dict` reads after unwrapping the `result` envelope. -/
structure StatisticsResultDict where
  ambassador : Option Bool
  countries_visited : Option (List String)
  fines_avoided : Option Int
  km_driven : Option Int
  navigation_finished : Option Int
  parked_once : Option Bool
  provinces_visited : Option (List String)
  recruiter : Option Int
  sec_driven : Option Int
  times_in_traffic : Option Int
  top_100_sprint_ms : Option Int
  top_consecutive_days : Option Int
  top_speed : Option Int
  total_ratings : Option Int
deriving DecidableEq

/-- A statistics response body: a single `result` envelope (absent when the
key is missing). -/
structure StatisticsDict where
  result : Option StatisticsResultDict
deriving DecidableEq

/-- `Statistics` dataclass of models.py; `Option`-valued fields as for `User`. -/
structure Statistics where
  ambassador : Option Bool
  countries_visited : Option (List String)
  fines_avoided : Option Int
  km_driven : Option Int
  navigation_finished : Option Int
  parked_once : Option Bool
  provinces_visited : Option (List String)
  recruiter : Option Int
  sec_driven : Option Int
  times_in_traffic : Option Int
  top_100_sprint_ms : Option Int
  top_consecutive_days : Option Int
  top_speed : Option Int
  total_ratings : Option Int
deriving DecidableEq

/-- `Statistics.from_dict` of models.py. First `data = data.get("result")`
unwraps the envelope; when the `result` key is absent the subsequent
`data.get(...)` dereferences `None` and raises AttributeError; otherwise each
field is read with `dict.get`. -/
def Statistics.from_dict (data : StatisticsDict) : Except PyError Statistics :=
  match data.result with
  | none => .error .attributeError
  | some r =>
    .ok { ambassador := r.ambassador,
          countries_visited := r.countries_visited,
          fines_avoided := r.fines_avoided,
          km_driven := r.km_driven,
          navigation_finished := r.navigation_finished,
          parked_once := r.parked_once,
          provinces_visited := r.provinces_visited,
          recruiter := r.recruiter,
          sec_driven := r.sec_driven,
          times_in_traffic := r.times_in_traffic,
          top_100_sprint_ms := r.top_100_sprint_ms,
          top_consecutive_days := r.top_consecutive_days,
          top_speed := r.top_speed,
          total_ratings := r.total_ratings }

/-- Counterexample to C5 as stated: on the input mapping with every key absent
(in particular the `statistics` sub-object), `User.from_dict` raises
AttributeError instead of producing a record of null fields. -/
theorem user_decode_missing_statistics_raises :
    User.from_dict
        { evEnabled4411 := none, parkingEnabled4411 := none,
          paymentMethodSet4411 := none, accessToken := none, firstName := none,
          gender := none, has4411Account := none, objectId := none,
          parkingEnabled := none, sessionToken := none, statistics := none,
          username := none, vehicleType := none } =
      .error .attributeError := rfl

/-- C5 (amended): on every user input whose `statistics` sub-object is present
and every statistics input whose `result` envelope is present, the decoders
are pure total functions that never raise: each absent key yields a null
output field, the decoders being exactly the field-by-field `dict.get`
translations. -/
theorem decoders_lenient_under_envelopes (u : UserDict)
    (sd : UserStatisticsDict) (s : StatisticsDict) (r : StatisticsResultDict)
    (hu : u.statistics = some sd) (hs : s.result = some r) :
    User.from_dict u =
      .ok { fourfouroneone_ev_enabled := u.evEnabled4411,
            fourfouroneone_parking_enabled := u.parkingEnabled4411,
            fourfouroneone_payment_method_set := u.paymentMethodSet4411,
            access_token := u.accessToken,
            first_name := u.firstName,
            gender := u.gender,
            has_4411_account := u.has4411Account,
            object_id := u.objectId,
            parking_enabled := u.parkingEnabled,
            session_token := u.sessionToken,
            statistics_top_speed := sd.topSpeed,
            statistics_top_sprint := sd.topSprint,
            statistics_travel_distance := sd.travelDistance,
            statistics_travel_time := sd.travelTime,
            username := u.username,
            vehicle_type := u.vehicleType } ∧
    Statistics.from_dict s =
      .ok { ambassador := r.ambassador,
            countries_visited := r.countries_visited,
            fines_avoided := r.fines_avoided,
            km_driven := r.km_driven,
            navigation_finished := r.navigation_finished,
            parked_once := r.parked_once,
            provinces_visited := r.provinces_visited,
            recruiter := r.recruiter,
            sec_driven := r.sec_driven,
            times_in_traffic := r.times_in_traffic,
            top_100_sprint_ms := r.top_100_sprint_ms,
            top_consecutive_days := r.top_consecutive_days,
            top_speed := r.top_speed,
            total_ratings := r.total_ratings } := by
  constructor
  · simp [User.from_dict, hu]
  · simp [Statistics.from_dict, hs]

/-- Witness for the amended C5: a user input with the sub-object present but
all its keys absent, and a statistics input with an empty envelope, both
decode to all-null records. -/
theorem decoders_lenient_under_envelopes_witness :
    User.from_dict
        { evEnabled4411 := none, parkingEnabled4411 := none,
          paymentMethodSet4411 := none, accessToken := none, firstName := none,
          gender := none, has4411Account := none, objectId := none,
          parkingEnabled := none, sessionToken := none,
          statistics := some { topSpeed := none, topSprint := none,
                               travelDistance := none, travelTime := none },
          username := none, vehicleType := none } =
      .ok { fourfouroneone_ev_enabled := none,
            fourfouroneone_parking_enabled := none,
            fourfouroneone_payment_method_set := none, access_token := none,
            first_name := none, gender := none, has_4411_account := none,
            object_id := none, parking_enabled := none, session_token := none,
            statistics_top_speed := none, statistics_top_sprint := none,
            statistics_travel_distance := none, statistics_travel_time := none,
            username := none, vehicle_type := none } ∧
    Statistics.from_dict
        { result := some
            { ambassador := none, countries_visited := none,
              fines_avoided := none, km_driven := none,
              navigation_finished := none, parked_once := none,
              provinces_visited := none, recruiter := none, sec_driven := none,
              times_in_traffic := none, top_100_sprint_ms := none,
              top_consecutive_days := none, top_speed := none,
              total_ratings := none } } =
      .ok { ambassador := none, countries_visited := none,
            fines_avoided := none, km_driven := none,
            navigation_finished := none, parked_once := none,
            provinces_visited := none, recruiter := none, sec_driven := none,
            times_in_traffic := none, top_100_sprint_ms := none,
            top_consecutive_days := none, top_speed := none,
            total_ratings := none } :=
  decoders_lenient_under_envelopes
    { evEnabled4411 := none, parkingEnabled4411 := none,
      paymentMethodSet4411 := none, accessToken := none, firstName := none,
      gender := none, has4411Account := none, objectId := none,
      parkingEnabled := none, sessionToken := none,
      statistics := some { topSpeed := none, topSprint := none,
                           travelDistance := none, travelTime := none },
      username := none, vehicleType := none }
    { topSpeed := none, topSprint := none, travelDistance := none,
      travelTime := none }
    { result := some
        { ambassador := none, countries_visited := none, fines_avoided := none,
          km_driven := none, navigation_finished := none, parked_once := none,
          provinces_visited := none, recruiter := none, sec_driven := none,
          times_in_traffic := none, top_100_sprint_ms := none,
          top_consecutive_days := none, top_speed := none,
          total_ratings := none } }
    { ambassador := none, countries_visited := none, fines_avoided := none,
      km_driven := none, navigation_finished := none, parked_once := none,
      provinces_visited := none, recruiter := none, sec_driven := none,
      times_in_traffic := none, top_100_sprint_ms := none,
      top_consecutive_days := none, top_speed := none, total_ratings := none }
    rfl rfl

/-- C6: on every response of the form with a `result` envelope present, the
Statistics decoder unwraps exactly that one layer and copies each inner field
to the corresponding record field; in particular the countries-visited and
provinces-visited sequences are returned verbatim, preserving the server's
element order with no deduplication. -/
theorem statistics_decode_unwraps_result (s : StatisticsDict)
    (r : StatisticsResultDict) (h : s.result = some r) :
    Statistics.from_dict s =
      .ok { ambassador := r.ambassador,
            countries_visited := r.countries_visited,
            fines_avoided := r.fines_avoided,
            km_driven := r.km_driven,
            navigation_finished := r.navigation_finished,
            parked_once := r.parked_once,
            provinces_visited := r.provinces_visited,
            recruiter := r.recruiter,
            sec_driven := r.sec_driven,
            times_in_traffic := r.times_in_traffic,
            top_100_sprint_ms := r.top_100_sprint_ms,
            top_consecutive_days := r.top_consecutive_days,
            top_speed := r.top_speed,
            total_ratings := r.total_ratings } ∧
    (∀ out, Statistics.from_dict s = .ok out →
      out.countries_visited = r.countries_visited ∧
      out.provinces_visited = r.provinces_visited) := by
  refine ⟨by simp [Statistics.from_dict, h], fun out hout => ?_⟩
  simp [Statistics.from_dict, h] at hout
  subst hout
  exact ⟨rfl, rfl⟩

/-- Witness for C6 at the spec's example payload: fines avoided 210, km driven
63550, countries visited NL, DE, BE in order. -/
theorem statistics_decode_unwraps_result_witness :
    Statistics.from_dict
        { result := some
            { ambassador := some true,
              countries_visited := some ["NL", "DE", "BE"],
              fines_avoided := some 210, km_driven := some 63550,
              navigation_finished := some 301, parked_once := some true,
              provinces_visited := some ["NL-ZH", "NL-UT", "NL-GE"],
              recruiter := some 0, sec_driven := some 162900000,
              times_in_traffic := some 500, top_100_sprint_ms := some 4000,
              top_consecutive_days := some 61, top_speed := some 413,
              total_ratings := some 450 } } =
      .ok { ambassador := some true,
            countries_visited := some ["NL", "DE", "BE"],
            fines_avoided := some 210, km_driven := some 63550,
            navigation_finished := some 301, parked_once := some true,
            provinces_visited := some ["NL-ZH", "NL-UT", "NL-GE"],
            recruiter := some 0, sec_driven := some 162900000,
            times_in_traffic := some 500, top_100_sprint_ms := some 4000,
            top_consecutive_days := some 61, top_speed := some 413,
            total_ratings := some 450 } :=
  (statistics_decode_unwraps_result _ _ rfl).1

/-- Model of an aiohttp ClientSession object: its identity and whether it has
been closed. -/
structure ClientSession where
  sid : Nat
  closed : Bool
deriving DecidableEq

/-- `ClientSession.close` of aiohttp: marks the session closed; closing an
already closed session is a no-op and raises no error. -/
def ClientSession.close (s : ClientSession) : ClientSession :=
  { s with closed := true }

/-- The fixed base endpoint of flitsmeister.py. -/
def ENDPOINT : String := "https://account.flitsmeister.app/"

/-- The mutable state of an `FM` client object: the optional held session, the
session-ownership flag `_close_session`, the request timeout and the optional
held Auth. -/
structure FMState where
  session : Option ClientSession
  close_session : Bool
  request_timeout : Int
  auth : Option Auth
deriving DecidableEq

/-- An HTTP request as assembled by `FM._request`: method, url, header mapping
and JSON body. Header values are `Option String` because a held Auth's
`session_token` attribute may be `None`. -/
structure HttpRequest where
  method : String
  url : String
  headers : List (String × Option String)
  body : List (String × String)
deriving DecidableEq

/-- `FM.__init__` of flitsmeister.py: stores the (possibly absent) caller
session, timeout and Auth; the class-level `_close_session` flag starts
false. -/
def FM.init (client_session : Option ClientSession) (request_timeout : Int)
    (auth : Option Auth) : FMState :=
  { session := client_session, close_session := false,
    request_timeout := request_timeout, auth := auth }

/-- `FM._request` of flitsmeister.py, up to the point the request is handed to
the transport: lazily creates a ClientSession (with fresh identity `freshSid`)
and sets `_close_session` when none is held; builds the headers, always with
Content-Type application/json and with x-parse-session-token exactly when an
Auth is held; assembles the url from ENDPOINT and the path. Returns the
updated client state and the request sent. -/
def FM.request (st : FMState) (freshSid : Nat) (path method : String)
    (body : List (String × String)) : FMState × HttpRequest :=
  let st1 :=
    match st.session with
    | none => { st with session := some { sid := freshSid, closed := false },
                        close_session := true }
    | some _ => st
  let headers :=
    match st1.auth with
    | none => [("Content-Type", some "application/json")]
    | some a => [("Content-Type", some "application/json"),
                 ("x-parse-session-token", a.session_token)]
  (st1, { method := method, url := ENDPOINT ++ path, headers := headers,
          body := body })

/-- Python string interpolation of a possibly-None value, as in the f-string
of `FM.user`. -/
def pyStr : Option String → String
  | none => "None"
  | some s => s

/-- `FM.login` of flitsmeister.py: posts the credentials (with the `_method`
override field) to parse/login via `_request`, then decodes the transport's
response body with `Auth.from_dict`. Returns the updated client state, the
request sent and the decode outcome. -/
def FM.login (st : FMState) (freshSid : Nat) (username password : String)
    (now : Int) (response : LoginResponse) :
    FMState × HttpRequest × Except PyError Auth :=
  let r := FM.request st freshSid "parse/login" "POST"
    [("_method", "GET"), ("username", username), ("password", password)]
  (r.1, r.2, Auth.from_dict now response)

/-- `FM.user` of flitsmeister.py: raises NotauthenticatedException before any
request when no Auth is held; otherwise issues a GET to the path parameterized
by the held Auth's object_id and decodes the response with `User.from_dict`.
The middle component is the request sent, `none` when no request was made. -/
def FM.user (st : FMState) (freshSid : Nat) (response : UserDict) :
    FMState × Option HttpRequest × Except PyError User :=
  match st.auth with
  | none => (st, none, .error .notauthenticated)
  | some a =>
    let r := FM.request st freshSid
      ("parse/classes/_User/" ++ pyStr a.object_id) "GET" []
    (r.1, some r.2, User.from_dict response)

/-- `FM.statistics` of flitsmeister.py: raises NotauthenticatedException
before any request when no Auth is held; otherwise posts an empty body to
parse/functions/fetchStatistics and decodes the response with
`Statistics.from_dict`. -/
def FM.statistics (st : FMState) (freshSid : Nat) (response : StatisticsDict) :
    FMState × Option HttpRequest × Except PyError Statistics :=
  match st.auth with
  | none => (st, none, .error .notauthenticated)
  | some _ =>
    let r := FM.request st freshSid "parse/functions/fetchStatistics" "POST" []
    (r.1, some r.2, Statistics.from_dict response)

/-- `FM.close` of flitsmeister.py: awaits `self._session.close()` exactly when
a session is held and `_close_session` is set. Never raises. The Bool records
whether `close()` was invoked on the session. -/
def FM.close (st : FMState) : FMState × Bool :=
  if st.session.isSome && st.close_session then
    ({ st with session := st.session.map ClientSession.close }, true)
  else (st, false)

/-- `FM.__aexit__` of flitsmeister.py, the scoped-acquisition exit path: it
just awaits `self.close()`. -/
def FM.aexit (st : FMState) : FMState × Bool := FM.close st

/-- One public operation on an FM client, together with the environment data
(fresh session identity, wall clock, transport response) it consumes. -/
inductive Op where
  | login (freshSid : Nat) (username password : String) (now : Int)
      (response : LoginResponse)
  | user (freshSid : Nat) (response : UserDict)
  | statistics (freshSid : Nat) (response : StatisticsDict)
  | close
  | aexit

/-- The state transformation of one operation. -/
def Op.apply (st : FMState) : Op → FMState
  | .login sid u p now r => (FM.login st sid u p now r).1
  | .user sid r => (FM.user st sid r).1
  | .statistics sid r => (FM.statistics st sid r).1
  | .close => (FM.close st).1
  | .aexit => (FM.aexit st).1

/-- Running a sequence of operations from a state. -/
def runOps (st : FMState) (ops : List Op) : FMState :=
  ops.foldl Op.apply st

/-- C2: on a client holding no Auth, `user` and `statistics` raise
NotauthenticatedException, leave the state untouched (in particular no session
is created) and send no request. -/
theorem no_auth_short_circuits (st : FMState) (h : st.auth = none) (sid : Nat)
    (uresp : UserDict) (sresp : StatisticsDict) :
    FM.user st sid uresp = (st, none, .error .notauthenticated) ∧
    FM.statistics st sid sresp = (st, none, .error .notauthenticated) := by
  constructor
  · simp [FM.user, h]
  · simp [FM.statistics, h]

/-- Witness for C2 on a freshly constructed client with no Auth. -/
theorem no_auth_short_circuits_witness :
    FM.user (FM.init none 10 none) 0
        { evEnabled4411 := none, parkingEnabled4411 := none,
          paymentMethodSet4411 := none, accessToken := none, firstName := none,
          gender := none, has4411Account := none, objectId := none,
          parkingEnabled := none, sessionToken := none, statistics := none,
          username := none, vehicleType := none } =
      (FM.init none 10 none, none, .error .notauthenticated) ∧
    FM.statistics (FM.init none 10 none) 0 { result := none } =
      (FM.init none 10 none, none, .error .notauthenticated) :=
  no_auth_short_circuits (FM.init none 10 none) rfl 0
    { evEnabled4411 := none, parkingEnabled4411 := none,
      paymentMethodSet4411 := none, accessToken := none, firstName := none,
      gender := none, has4411Account := none, objectId := none,
      parkingEnabled := none, sessionToken := none, statistics := none,
      username := none, vehicleType := none }
    { result := none }

/-- C7: for every client state and credentials, `login` decodes the response
body through `Auth.from_dict` and returns that result, while the client's held
Auth after the call is exactly what it was before: login never attaches the
returned Auth. -/
theorem login_leaves_auth_unchanged (st : FMState) (sid : Nat)
    (username password : String) (now : Int) (response : LoginResponse) :
    (FM.login st sid username password now response).1.auth = st.auth ∧
    (FM.login st sid username password now response).2.2 =
      Auth.from_dict now response := by
  cases h : st.session <;> simp [FM.login, FM.request, h]

/-- C8: `close` invokes the session's close exactly when a session is held and
the client owns it; with the ownership flag unset the state is untouched (a
caller-supplied session is never closed); with it set the held session is
closed; `close` never raises, a second `close` (and the scoped-acquisition
exit path, which just calls `close`) leaves the state fixed. -/
theorem close_respects_session_ownership (st : FMState) :
    ((FM.close st).2 = true ↔
      st.session.isSome = true ∧ st.close_session = true) ∧
    (st.close_session = false → (FM.close st).1 = st) ∧
    (∀ s, st.session = some s → st.close_session = true →
      (FM.close st).1 = { st with session := some (ClientSession.close s) }) ∧
    (FM.close (FM.close st).1).1 = (FM.close st).1 ∧
    FM.aexit st = FM.close st := by
  obtain ⟨sess, cs, rt, auth⟩ := st
  cases sess <;> cases cs <;>
    simp [FM.close, FM.aexit, ClientSession.close]

/-- Witness for C8: a borrowed session is left untouched, an owned one is
closed. -/
theorem close_respects_session_ownership_witness :
    (FM.close { session := some { sid := 7, closed := false },
                close_session := false, request_timeout := 10,
                auth := none }).1 =
      { session := some { sid := 7, closed := false }, close_session := false,
        request_timeout := 10, auth := none } ∧
    (FM.close { session := some { sid := 7, closed := false },
                close_session := true, request_timeout := 10,
                auth := none }).2 = true :=
  ⟨(close_respects_session_ownership _).2.1 rfl,
   (close_respects_session_ownership
      { session := some { sid := 7, closed := false }, close_session := true,
        request_timeout := 10, auth := none }).1.mpr ⟨rfl, rfl⟩⟩

/-- The header policy of `FM._request`: Content-Type application/json always,
and the x-parse-session-token header carrying the held Auth's session token
exactly when an Auth is held. -/
def goodHeaders (auth : Option Auth) (req : HttpRequest) : Prop :=
  ("Content-Type", some "application/json") ∈ req.headers ∧
  (∀ a, auth = some a →
    ("x-parse-session-token", a.session_token) ∈ req.headers) ∧
  (auth = none → ∀ v, ("x-parse-session-token", v) ∉ req.headers)

/-- The request assembled by `FM._request` satisfies the header policy for the
pre-call Auth, whatever path, method and body it is given. -/
theorem request_goodHeaders (st : FMState) (sid : Nat) (path method : String)
    (body : List (String × String)) :
    goodHeaders st.auth (FM.request st sid path method body).2 := by
  cases hs : st.session <;> cases ha : st.auth <;>
    simp [goodHeaders, FM.request, hs, ha]

/-- C9: every request any of the three operations hands to the transport -
login included - carries Content-Type application/json, and carries
x-parse-session-token with the held Auth's session token exactly when an Auth
is held: the header decision depends only on Auth presence, not on the
operation. -/
theorem headers_depend_only_on_auth (st : FMState) (sid : Nat)
    (path method : String) (body : List (String × String))
    (username password : String) (now : Int) (lr : LoginResponse)
    (ur : UserDict) (sr : StatisticsDict) :
    goodHeaders st.auth (FM.request st sid path method body).2 ∧
    goodHeaders st.auth (FM.login st sid username password now lr).2.1 ∧
    (∀ req, (FM.user st sid ur).2.1 = some req → goodHeaders st.auth req) ∧
    (∀ req, (FM.statistics st sid sr).2.1 = some req →
      goodHeaders st.auth req) := by
  refine ⟨request_goodHeaders st sid path method body,
    request_goodHeaders st sid "parse/login" "POST" _, ?_, ?_⟩
  · intro req hreq
    cases ha : st.auth with
    | none => simp [FM.user, ha] at hreq
    | some a =>
      have hr : req = (FM.request st sid
          ("parse/classes/_User/" ++ pyStr a.object_id) "GET" []).2 := by
        simp [FM.user, ha] at hreq
        exact hreq.symm
      have hg := request_goodHeaders st sid
        ("parse/classes/_User/" ++ pyStr a.object_id) "GET" []
      rw [ha] at hg
      rw [hr]
      exact hg
  · intro req hreq
    cases ha : st.auth with
    | none => simp [FM.statistics, ha] at hreq
    | some a =>
      have hr : req = (FM.request st sid
          "parse/functions/fetchStatistics" "POST" []).2 := by
        simp [FM.statistics, ha] at hreq
        exact hreq.symm
      have hg := request_goodHeaders st sid
        "parse/functions/fetchStatistics" "POST" []
      rw [ha] at hg
      rw [hr]
      exact hg

/-- Witness for C9: with an Auth held the token header is present with the
held session token; without one it is absent. -/
theorem headers_depend_only_on_auth_witness :
    ("x-parse-session-token", some "stok") ∈
      (FM.request
        (FM.init none 10
          (some { session_token := some "stok", access_token := some "atok",
                  object_id := some "uid", access_token_expires := some 500 }))
        0 "parse/login" "POST" []).2.headers ∧
    ("Content-Type", some "application/json") ∈
      (FM.request (FM.init none 10 none) 0 "parse/login" "POST"
        []).2.headers ∧
    ("x-parse-session-token", some "stok") ∉
      (FM.request (FM.init none 10 none) 0 "parse/login" "POST"
        []).2.headers :=
  ⟨(headers_depend_only_on_auth
      (FM.init none 10
        (some { session_token := some "stok", access_token := some "atok",
                object_id := some "uid", access_token_expires := some 500 }))
      0 "parse/login" "POST" []
      "u" "p" 0 { sessionToken := none, accessToken := none }
      { evEnabled4411 := none, parkingEnabled4411 := none,
        paymentMethodSet4411 := none, accessToken := none, firstName := none,
        gender := none, has4411Account := none, objectId := none,
        parkingEnabled := none, sessionToken := none, statistics := none,
        username := none, vehicleType := none }
      { result := none }).1.2.1 _ rfl,
   (headers_depend_only_on_auth (FM.init none 10 none) 0 "parse/login"
      "POST" [] "u" "p" 0 { sessionToken := none, accessToken := none }
      { evEnabled4411 := none, parkingEnabled4411 := none,
        paymentMethodSet4411 := none, accessToken := none, firstName := none,
        gender := none, has4411Account := none, objectId := none,
        parkingEnabled := none, sessionToken := none, statistics := none,
        username := none, vehicleType := none }
      { result := none }).1.1,
   (headers_depend_only_on_auth (FM.init none 10 none) 0 "parse/login"
      "POST" [] "u" "p" 0 { sessionToken := none, accessToken := none }
      { evEnabled4411 := none, parkingEnabled4411 := none,
        paymentMethodSet4411 := none, accessToken := none, firstName := none,
        gender := none, has4411Account := none, objectId := none,
        parkingEnabled := none, sessionToken := none, statistics := none,
        username := none, vehicleType := none }
      { result := none }).1.2.2 rfl (some "stok")⟩

/-- A single operation on a client that holds a caller-supplied session (flag
unset) keeps that session and leaves the ownership flag unset. -/
theorem op_preserves_supplied_session (st : FMState) (s : ClientSession)
    (h1 : st.session = some s) (h2 : st.close_session = false) (op : Op) :
    (Op.apply st op).session = some s ∧
    (Op.apply st op).close_session = false := by
  cases op with
  | login sid u p now r => simp [Op.apply, FM.login, FM.request, h1, h2]
  | user sid r =>
    cases ha : st.auth <;>
      simp [Op.apply, FM.user, FM.request, h1, h2, ha]
  | statistics sid r =>
    cases ha : st.auth <;>
      simp [Op.apply, FM.statistics, FM.request, h1, h2, ha]
  | close => simp [Op.apply, FM.close, h1, h2]
  | aexit => simp [Op.apply, FM.aexit, FM.close, h1, h2]

/-- Any sequence of operations on a client that holds a caller-supplied
session keeps that very session and never sets the ownership flag. -/
theorem runOps_preserves_supplied_session (ops : List Op) (st : FMState)
    (s : ClientSession) (h1 : st.session = some s)
    (h2 : st.close_session = false) :
    (runOps st ops).session = some s ∧
    (runOps st ops).close_session = false := by
  induction ops generalizing st with
  | nil => exact ⟨h1, h2⟩
  | cons op rest ih =>
    exact ih (Op.apply st op) (op_preserves_supplied_session st s h1 h2 op).1
      (op_preserves_supplied_session st s h1 h2 op).2

/-- C10: the session-ownership invariant. A request on a client with no
session creates exactly one fresh session and sets the ownership flag; a
request on a client that already holds a session leaves the state untouched
(the session is never replaced); a client constructed with a caller-supplied
session starts with the flag unset and, under every sequence of operations,
keeps that session and the unset flag forever. -/
theorem session_ownership_invariant (st : FMState) (sid : Nat)
    (path method : String) (body : List (String × String)) (ops : List Op)
    (s : ClientSession) (rt : Int) (a : Option Auth) :
    (st.session = none →
      (FM.request st sid path method body).1 =
        { st with session := some { sid := sid, closed := false },
                  close_session := true }) ∧
    (∀ s0, st.session = some s0 →
      (FM.request st sid path method body).1 = st) ∧
    (FM.init (some s) rt a).close_session = false ∧
    (runOps (FM.init (some s) rt a) ops).session = some s ∧
    (runOps (FM.init (some s) rt a) ops).close_session = false := by
  refine ⟨fun h => by simp [FM.request, h], fun s0 h => by simp [FM.request, h],
    rfl, ?_, ?_⟩
  · exact (runOps_preserves_supplied_session ops (FM.init (some s) rt a) s
      rfl rfl).1
  · exact (runOps_preserves_supplied_session ops (FM.init (some s) rt a) s
      rfl rfl).2

/-- Witness for C10: lazy creation on a sessionless client, and a supplied
session surviving a login followed by a close unchanged, flag still unset. -/
theorem session_ownership_invariant_witness :
    (FM.request (FM.init none 10 none) 3 "parse/login" "POST" []).1 =
      { session := some { sid := 3, closed := false }, close_session := true,
        request_timeout := 10, auth := none } ∧
    (runOps (FM.init (some { sid := 7, closed := false }) 10 none)
        [Op.login 4 "u" "p" 0 { sessionToken := none, accessToken := none },
         Op.close]).session = some { sid := 7, closed := false } ∧
    (runOps (FM.init (some { sid := 7, closed := false }) 10 none)
        [Op.login 4 "u" "p" 0 { sessionToken := none, accessToken := none },
         Op.close]).close_session = false :=
  ⟨(session_ownership_invariant (FM.init none 10 none) 3 "parse/login" "POST"
      [] [] { sid := 0, closed := false } 0 none).1 rfl,
   (session_ownership_invariant (FM.init none 10 none) 0 "" "" []
      [Op.login 4 "u" "p" 0 { sessionToken := none, accessToken := none },
       Op.close] { sid := 7, closed := false } 10 none).2.2.2.1,
   (session_ownership_invariant (FM.init none 10 none) 0 "" "" []
      [Op.login 4 "u" "p" 0 { sessionToken := none, accessToken := none },
       Op.close] { sid := 7, closed := false } 10 none).2.2.2.2⟩
